import Mathlib

/-!
Verification of the search ranking subsystem of the devSnippets backend.

The development shallowly embeds the Python source under `app/` into Lean:

* Python `float` values are modelled as rationals (every IEEE double is a
  rational number); floating-point rounding is not modelled.
* Python functions that can raise are modelled as `Except`-valued functions;
  a `try/except` block becomes a `match` on the `Except` value.
* The scikit-learn and Weaviate libraries are external to the repository;
  the parts of their behaviour the code depends on are modelled explicitly
  (TF-IDF tokenisation and the empty-vocabulary error, cosine similarity,
  and the shape of Weaviate GraphQL responses).
-/

namespace DevSnippets

/-- Python list slicing `xs[:limit]` for an arbitrary `int` limit: a
non-negative limit keeps the first `limit` elements, a negative limit drops
the last `-limit` elements (empty when the list is shorter than that). -/
def pySlice (limit : Int) (xs : List α) : List α :=
  if 0 ≤ limit then xs.take limit.toNat
  else xs.take (xs.length - (-limit).toNat)

/-- Errors that can cross a Python call boundary in the modelled code:
`typeError` for calling a function with an unexpected keyword argument,
`valueError` for scikit-learn vectorisation failures, and
`httpException` for FastAPI error responses. -/
inductive PyErr where
  | typeError (msg : String)
  | valueError (msg : String)
  | httpException (statusCode : Nat)
deriving DecidableEq, Repr

/-- Mirror of the SQLAlchemy model `SnippetDB` (app/services/database.py):
id, title, nullable description, code, language, tags and the nullable
`embedding` JSON array of floats. The timestamp column is omitted; no
modelled operation reads it. -/
structure SnippetRecord where
  id : Nat
  title : String
  description : Option String
  code : String
  language : String
  tags : List String
  embedding : Option (List ℚ)
deriving DecidableEq, Repr

/-- Text combination performed by `SemanticSearchService.search_snippets`
(app/services/search.py line 72): title, `description or ''`, language and
code joined by single spaces. -/
def combined_text (s : SnippetRecord) : String :=
  s.title ++ " " ++ s.description.getD "" ++ " " ++ s.language ++ " " ++ s.code

/-- Ordering used to model `results.sort(key=lambda x: x[1], reverse=True)`
(search.py line 100): `a` may precede `b` exactly when `a`'s score is at
least `b`'s. CPython's sort is stable, also with `reverse=True`, so the
Python call is exactly the stable sort under this total preorder; a stable
sort's output is uniquely determined by the input and the preorder, so the
model may use any stable sorting algorithm (insertion sort below). -/
def simDesc (a b : α × ℚ) : Prop := b.2 ≤ a.2

instance : DecidableRel (@simDesc α) :=
  fun a b => inferInstanceAs (Decidable (b.2 ≤ a.2))

instance : IsTotal (α × ℚ) simDesc :=
  ⟨fun a b => le_total b.2 a.2⟩

instance : IsTrans (α × ℚ) simDesc :=
  ⟨fun _ _ _ hab hbc => le_trans hbc hab⟩

/-- Snippet objects extracted by the `if snippet:` loop of
`search_snippets` (search.py lines 69-74); a `None` snippet is skipped
(SQLAlchemy row objects are always truthy, `none` models `None`). -/
def candidateObjects (swe : List (Option SnippetRecord × List ℚ)) : List SnippetRecord :=
  swe.filterMap Prod.fst

/-- Combined texts of the candidate snippets (search.py line 72-73). -/
def candidateTexts (swe : List (Option SnippetRecord × List ℚ)) : List String :=
  (candidateObjects swe).map combined_text

/-- Pairing of each snippet object with its similarity score, modelling the
`for i, similarity in enumerate(similarities): if i < len(snippet_objects)`
loop (search.py lines 95-97): the pair list stops at the shorter of the two
sequences, exactly as `List.zip` does. -/
def scoredResults (objs : List SnippetRecord) (sims : List ℚ) :
    List (Option SnippetRecord × ℚ) :=
  (objs.zip sims).map (fun p => (some p.1, p.2))

/-- Fallback executed by the `except` branch of `search_snippets`
(search.py line 106): the first `limit` input pairs, each with similarity
`0.0`, snippets passed through unfiltered. -/
def fallbackResults (limit : Int) (swe : List (Option SnippetRecord × List ℚ)) :
    List (Option SnippetRecord × ℚ) :=
  (pySlice limit swe).map (fun p => (p.1, (0 : ℚ)))

/-- Model of `SemanticSearchService.search_snippets` (search.py lines
58-106). The vectorise-and-score step of the `try` block (lines 84-91:
`self.vectorizer.fit_transform(all_texts)` followed by
`cosine_similarity` over the resulting rows) is abstracted as the `score`
argument, which receives the candidate texts and the query and either
returns one float similarity per text or fails with the exception caught by
the `except` branch. Note the source signature has exactly the parameters
`(self, query, snippets_with_embeddings, limit=10)` - there is no
`threshold` parameter and no threshold filtering in the body. -/
def search_snippets (score : List String → String → Except String (List ℚ))
    (query : String) (swe : List (Option SnippetRecord × List ℚ)) (limit : Int) :
    List (Option SnippetRecord × ℚ) :=
  if swe.isEmpty then []
  else if (candidateTexts swe).isEmpty then []
  else
    match score (candidateTexts swe) query with
    | .ok sims =>
        pySlice limit ((scoredResults (candidateObjects swe) sims).insertionSort simDesc)
    | .error _ => fallbackResults limit swe

/-- Model of the Python call semantics for invoking
`SemanticSearchService.search_snippets` with keyword arguments as the
route does (app/routes/snippets.py lines 140-145 and 156-161): the callee
declares no `threshold` parameter, so passing `threshold=...` raises
`TypeError` before the body runs; without it the body executes. -/
def search_snippets_call (score : List String → String → Except String (List ℚ))
    (query : String) (swe : List (Option SnippetRecord × List ℚ)) (limit : Int)
    (threshold : Option ℚ) : Except PyErr (List (Option SnippetRecord × ℚ)) :=
  match threshold with
  | some _ =>
      .error (.typeError "search_snippets() got an unexpected keyword argument threshold")
  | none => .ok (search_snippets score query swe limit)

/-- Word characters of the scikit-learn default token pattern (a regex
word character: letter, digit or underscore). -/
def isWordChar (c : Char) : Bool := c.isAlphanum || c = '_'

/-- Maximal runs of word characters of the input, lowercased; the second
argument accumulates the current (reversed) run. -/
def wordRuns : List Char → List Char → List (List Char)
  | [], acc => if acc.isEmpty then [] else [acc.reverse]
  | c :: cs, acc =>
      if isWordChar c then wordRuns cs (c.toLower :: acc)
      else if acc.isEmpty then wordRuns cs acc
      else acc.reverse :: wordRuns cs []

/-- Model of the scikit-learn default analyzer's tokenisation: lowercase
the text and keep every maximal run of at least two word characters (the
default token pattern keeps only tokens of two or more characters). -/
def tokenize (s : String) : List String :=
  (wordRuns s.data []).filterMap
    (fun run => if 2 ≤ run.length then some (String.mk run) else none)

/-- Representative subset of scikit-learn's built-in english stop-word
list, applied when a vectorizer is constructed with stop_words english.
No property proved below depends on the exact membership of this list;
what matters is that stop-word removal can leave a document without any
token (the empty-vocabulary error path). -/
def englishStopWords : List String :=
  ["the", "and", "is", "in", "it", "of", "to", "for", "with", "on", "as",
   "at", "by", "an", "be", "this", "that", "from", "or", "are", "was",
   "were", "not", "no", "but", "if", "then", "they", "them", "we", "you",
   "all", "any", "can", "will", "has", "have", "had", "its", "their",
   "there", "these", "those", "would", "what", "which", "when", "where",
   "who", "how", "again", "once", "only", "own", "same", "so", "than",
   "too", "very"]

/-- Character n-grams of exactly n consecutive tokens, joined by a space
(scikit-learn word n-grams). -/
def ngramsOfSize (n : Nat) (ts : List String) : List String :=
  (List.range (ts.length + 1 - n)).map
    (fun i => String.intercalate " " ((ts.drop i).take n))

/-- All word n-grams for sizes nmin through nmax, smaller sizes first. -/
def ngramsRange (nmin nmax : Nat) (ts : List String) : List String :=
  ((List.range (nmax + 1 - nmin)).map (fun k => ngramsOfSize (nmin + k) ts)).flatten

/-- Configuration of a `TfidfVectorizer` as constructed in the source:
`max_features`, `stop_words='english'` (modelled as a flag), the
`ngram_range` bounds, integer `min_df` and fractional `max_df`. -/
structure TfidfConfig where
  max_features : Option Nat
  stop_words : Bool
  ngram_min : Nat
  ngram_max : Nat
  min_df : Nat
  max_df : ℚ
deriving DecidableEq, Repr

/-- Configuration of the shared `self.vectorizer`
(search.py lines 11-17): max_features 5000, english stop words,
ngram_range (1, 2), min_df 1, max_df 0.95. -/
def serviceCfg : TfidfConfig :=
  ⟨some 5000, true, 1, 2, 1, mkRat 95 100⟩

/-- Configuration of the throwaway `temp_vectorizer` of `create_embedding`
(search.py line 26): max_features 1000, english stop words, and the
scikit-learn defaults ngram_range (1, 1), min_df 1, max_df 1.0. -/
def tempCfg : TfidfConfig :=
  ⟨some 1000, true, 1, 1, 1, 1⟩

/-- Analyzer of a document: tokenise, drop stop words when configured,
then form the configured word n-grams (scikit-learn applies stop-word
removal before building n-grams). -/
def analyze (cfg : TfidfConfig) (text : String) : List String :=
  let toks := tokenize text
  let toks := if cfg.stop_words then toks.filter (fun t => decide (t ∉ englishStopWords)) else toks
  ngramsRange cfg.ngram_min cfg.ngram_max toks

/-- Document frequency of a term over analysed documents. -/
def docFreq (docs : List (List String)) (t : String) : Nat :=
  (docs.filter (fun d => decide (t ∈ d))).length

/-- Total occurrence count of a term over analysed documents, the quantity
scikit-learn orders by when truncating to `max_features`. -/
def termFreqTotal (docs : List (List String)) (t : String) : Nat :=
  (docs.map (fun d => d.count t)).sum

/-- Distinct terms occurring in the analysed documents. The order of the
vocabulary is irrelevant to every property proved below. -/
def rawVocabulary (docs : List (List String)) : List String :=
  docs.flatten.dedup

/-- Vocabulary after document-frequency pruning: scikit-learn keeps terms
with `min_df ≤ df` and, for a fractional `max_df`, with
`df ≤ max_df * n_docs` (strictly more frequent terms are pruned). -/
def dfFiltered (cfg : TfidfConfig) (docs : List (List String)) : List String :=
  (rawVocabulary docs).filter
    (fun t => decide (cfg.min_df ≤ docFreq docs t) &&
              decide ((docFreq docs t : ℚ) ≤ cfg.max_df * docs.length))

/-- Final vocabulary: after df pruning, keep only the `max_features` terms
of highest total frequency when that cap is configured. -/
def vocabulary (cfg : TfidfConfig) (docs : List (List String)) : List String :=
  match cfg.max_features with
  | none => dfFiltered cfg docs
  | some k =>
      ((dfFiltered cfg docs).insertionSort
        (fun a b => termFreqTotal docs b ≤ termFreqTotal docs a)).take k

/-- Fitted state of a `TfidfVectorizer`: the learned vocabulary and, per
term, its document frequency, plus the corpus size (these determine the
idf weights scikit-learn stores after fitting). -/
structure FittedState where
  vocab : List String
  df : List Nat
  nDocs : Nat
deriving DecidableEq, Repr

/-- Model of `TfidfVectorizer.fit` on a document list: analyse every
document; raise `ValueError` when no term at all occurs (scikit-learn's
empty-vocabulary error, hit for example when every document is empty or
contains only stop words) or when df pruning removes every term. -/
def tfidf_fit (cfg : TfidfConfig) (docs : List String) : Except String FittedState :=
  let analyzed := docs.map (analyze cfg)
  if rawVocabulary analyzed = [] then
    .error "empty vocabulary; perhaps the documents only contain stop words"
  else
    let v := vocabulary cfg analyzed
    if v = [] then
      .error "After pruning, no terms remain. Try a lower min_df or a higher max_df."
    else .ok ⟨v, v.map (docFreq analyzed), docs.length⟩

/-- Smoothed idf weight of scikit-learn's default configuration
(smooth_idf true): log((1 + n) / (1 + df)) + 1. -/
noncomputable def idfWeight (nDocs df : Nat) : ℝ :=
  Real.log ((1 + (nDocs : ℝ)) / (1 + (df : ℝ))) + 1

/-- Euclidean (l2) normalisation as performed by scikit-learn's
`normalize`: a vector of norm zero is returned unchanged. -/
noncomputable def l2normalize (v : List ℝ) : List ℝ :=
  let n := Real.sqrt ((v.map (fun x => x * x)).sum)
  if n = 0 then v else v.map (fun x => x / n)

/-- Row of a fitted vectorizer's transform output for one document: term
counts over the fitted vocabulary weighted by idf, then l2-normalised
(scikit-learn defaults: sublinear_tf false, norm l2). -/
noncomputable def tfidfRow (cfg : TfidfConfig) (fs : FittedState) (text : String) : List ℝ :=
  l2normalize
    (List.zipWith (fun t d => ((analyze cfg text).count t : ℝ) * idfWeight fs.nDocs d)
      fs.vocab fs.df)

/-- Model of `TfidfVectorizer.fit_transform`: fit, then transform each of
the fitted documents. -/
noncomputable def tfidf_fit_transform (cfg : TfidfConfig) (docs : List String) :
    Except String (List (List ℝ)) :=
  (tfidf_fit cfg docs).map (fun fs => docs.map (tfidfRow cfg fs))

/-- Mutable state of a `SemanticSearchService` instance (search.py lines
8-20): the `fitted` flag, the shared vectorizer's fitted state (none
before any fit), and the `document_vectors` and `documents` fields that
`__init__` sets and nothing ever writes again. -/
structure ServiceState where
  fitted : Bool
  vectorizer : Option FittedState
  document_vectors : Option (List (List ℚ))
  documents : List String

/-- State of the module-level `search_service = SemanticSearchService()`
instance right after `__init__` (search.py lines 8-20 and 109). -/
def initService : ServiceState :=
  ⟨false, none, none, []⟩

/-- Unfit branch of `create_embedding` (search.py lines 24-28): fit a
throwaway vectorizer on the single input text and return its only row;
the empty-vocabulary `ValueError` propagates, there is no try block. -/
noncomputable def create_embedding_unfit (text : String) : Except String (List ℝ) :=
  (tfidf_fit_transform tempCfg [text]).map (fun rows => rows.headD [])

/-- Fitted branch of `create_embedding` (search.py lines 30-32):
transform with the shared vectorizer (scikit-learn raises when it was
never fitted). -/
noncomputable def vectorizer_transform (s : ServiceState) (text : String) :
    Except String (List ℝ) :=
  match s.vectorizer with
  | some fs => .ok (tfidfRow serviceCfg fs text)
  | none => .error "This TfidfVectorizer instance is not fitted yet"

/-- Model of `SemanticSearchService.create_embedding` (search.py lines
22-32): branch on `self.fitted`. -/
noncomputable def create_embedding (s : ServiceState) (text : String) :
    Except String (List ℝ) :=
  if s.fitted then vectorizer_transform s text
  else create_embedding_unfit text

/-- Model of `SemanticSearchService.create_snippet_embedding` (search.py
lines 34-38): combine the fields and delegate to `create_embedding`. -/
noncomputable def create_snippet_embedding (s : ServiceState)
    (title description code language : String) : Except String (List ℝ) :=
  create_embedding s (title ++ " " ++ description ++ " " ++ language ++ " " ++ code)

/-- One public operation of `SemanticSearchService`, for reasoning about
every reachable state of the module-level instance. -/
inductive ServiceOp where
  | createEmbedding (text : String)
  | createSnippetEmbedding (title description code language : String)
  | calculateSimilarity (q s : List ℚ)
  | searchSnippets (query : String) (swe : List (Option SnippetRecord × List ℚ)) (limit : Int)

/-- State effect of one operation. Only `search_snippets` mutates the
instance: `self.vectorizer.fit_transform(all_texts)` (search.py line 84)
refits the shared vectorizer object, but no operation ever assigns
`self.fitted`, `self.document_vectors` or `self.documents`. -/
def runOp (s : ServiceState) : ServiceOp → ServiceState
  | .createEmbedding _ => s
  | .createSnippetEmbedding _ _ _ _ => s
  | .calculateSimilarity _ _ => s
  | .searchSnippets query swe _ =>
      if swe.isEmpty then s
      else if (candidateTexts swe).isEmpty then s
      else
        match tfidf_fit serviceCfg (candidateTexts swe ++ [query]) with
        | .ok fs => { s with vectorizer := some fs }
        | .error _ => s

/-- State after a sequence of operations. -/
def runOps (s : ServiceState) (ops : List ServiceOp) : ServiceState :=
  ops.foldl runOp s

/-- Dot product of two float vectors (`zip`-style: stops at the shorter). -/
def dotQ (a b : List ℚ) : ℚ := (List.zipWith (· * ·) a b).sum

/-- Sum of squares of a float vector. -/
def sumsq (a : List ℚ) : ℚ := (a.map (fun x => x * x)).sum

/-- Norm used by scikit-learn's `normalize`: vectors of norm zero are
divided by 1 instead (so `cosine_similarity` yields 0.0 for them, never
NaN). -/
noncomputable def normOr1 (a : List ℚ) : ℝ :=
  if sumsq a = 0 then 1 else Real.sqrt ((sumsq a : ℚ) : ℝ)

/-- Model of scikit-learn's `cosine_similarity` on two single-row inputs:
raises (none) when the dimensionalities differ, otherwise the dot product
over the product of the norms, with zero norms replaced by 1. -/
noncomputable def sklearn_cosine (a b : List ℚ) : Option ℝ :=
  if a.length ≠ b.length then none
  else some (((dotQ a b : ℚ) : ℝ) / (normOr1 a * normOr1 b))

/-- Model of `SemanticSearchService.calculate_similarity` (search.py lines
40-56): return 0.0 outright when the shorter length is zero, otherwise
truncate both vectors to the shorter length and apply cosine similarity. -/
noncomputable def calculate_similarity (q s : List ℚ) : Option ℝ :=
  let minLen := min q.length s.length
  if minLen = 0 then some 0
  else sklearn_cosine (q.take minLen) (s.take minLen)

/-- One object of the modelled Weaviate GraphQL Get response, with the
two `_additional` fields the adapter requests (`certainty` for the
near-vector search, `id` for the delete lookup). -/
structure GetSnippet where
  snippet_id : String
  title : String
  language : String
  description : String
  additional_certainty : ℚ
  additional_id : String
deriving DecidableEq, Repr

/-- Shape of a Weaviate query response as the adapter inspects it: the
source checks the three nested keys data, Get and CodeSnippet in
conjunction, so the model collapses them into one optional object list
(`none` when any of the keys is missing). On a successful GraphQL query
Weaviate always returns these keys, with an empty list when no object
matches the filter. -/
structure QueryResponse where
  data : Option (List GetSnippet)
deriving DecidableEq, Repr

/-- Arguments of the near-vector search issued by
`search_similar_snippets` (weaviate_service.py lines 117-127). -/
structure NearArgs where
  vector : List ℚ
  certainty : ℚ
  limit : Int
deriving DecidableEq, Repr

/-- Arguments of the object creation issued by `store_snippet_vector`
(weaviate_service.py lines 89-101). -/
structure CreateArgs where
  snippet_id : String
  title : String
  language : String
  description : String
  vector : List ℚ
deriving DecidableEq, Repr

/-- Behaviour of the external Weaviate client, the boundary of the
adapter: each operation either returns a response or raises. The adapter
code is verified for every possible client behaviour. -/
structure WeaviateClient where
  create_obj : CreateArgs → Except String String
  query_near : NearArgs → Except String QueryResponse
  query_where : String → Except String QueryResponse
  delete_obj : String → Except String Unit

/-- One formatted result of `search_similar_snippets`
(weaviate_service.py lines 136-142). -/
structure FormattedResult where
  snippet_id : String
  title : String
  language : String
  description : String
  similarity : ℚ
deriving DecidableEq, Repr

/-- Model of `WeaviateService.store_snippet_vector` (weaviate_service.py
lines 78-108): create the object inside a try block; any failure is
caught and converted to False, success returns True. -/
def store_snippet_vector (client : WeaviateClient) (snippet_id : String)
    (embedding : List ℚ) (title language description : String) : Bool :=
  match client.create_obj ⟨snippet_id, title, language, description, embedding⟩ with
  | .ok _ => true
  | .error _ => false

/-- Model of `WeaviateService.search_similar_snippets`
(weaviate_service.py lines 110-152): near-vector query with certainty
0.6 inside a try block; a raised error or a response without the nested
data keys yields the empty list, otherwise the objects are reformatted. -/
def search_similar_snippets (client : WeaviateClient) (query_vector : List ℚ)
    (limit : Int) : List FormattedResult :=
  match client.query_near ⟨query_vector, mkRat 6 10, limit⟩ with
  | .error _ => []
  | .ok resp =>
      match resp.data with
      | some snips =>
          snips.map (fun sn =>
            ⟨sn.snippet_id, sn.title, sn.language, sn.description, sn.additional_certainty⟩)
      | none => []

/-- Deletion loop of `delete_snippet_vector` (weaviate_service.py lines
175-177): delete each found object by its internal id; a raised error
aborts the loop and is caught by the surrounding except as False. -/
def deleteLoop (client : WeaviateClient) : List GetSnippet → Bool
  | [] => true
  | sn :: rest =>
      match client.delete_obj sn.additional_id with
      | .ok _ => deleteLoop client rest
      | .error _ => false

/-- Model of `WeaviateService.delete_snippet_vector` (weaviate_service.py
lines 154-186): look the object up by snippet_id inside a try block.
When the response carries the nested data keys, delete every match and
return True - also when the match list is empty; when the keys are
missing return False; when anything raises return False. -/
def delete_snippet_vector (client : WeaviateClient) (snippet_id : String) : Bool :=
  match client.query_where snippet_id with
  | .error _ => false
  | .ok resp =>
      match resp.data with
      | some snips => deleteLoop client snips
      | none => false

/-- One entry of the external vector index (a stored Weaviate object):
internal uuid, the referencing snippet_id and the stored payload. -/
structure IndexEntry where
  uuid : String
  snippet_id : String
  title : String
  language : String
  description : String
  vector : List ℚ
deriving DecidableEq, Repr

/-- Combined persistent state of the system: the PostgreSQL snippet rows
and the external vector index entries. -/
structure AppState where
  db : List SnippetRecord
  index : List IndexEntry
deriving DecidableEq, Repr

/-- Model of the route `DELETE /snippets/:id` (app/routes/snippets.py
lines 95-103): look the row up, 404 when absent, otherwise delete the
row and commit. The body never touches `weaviate_service`, so the index
component of the state is untouched. -/
def delete_snippet_endpoint (st : AppState) (sid : Nat) : Except PyErr AppState :=
  match st.db.find? (fun r => r.id == sid) with
  | none => .error (.httpException 404)
  | some _ => .ok { st with db := st.db.eraseP (fun r => r.id == sid) }

/-- Response model of `POST /search` (app/schemas/snippet.py
SearchResponse): the scored snippets, their count and the echoed query. -/
structure SearchResponse where
  snippets : List (Option SnippetRecord × ℚ)
  total_count : Nat
  query : String
deriving DecidableEq, Repr

/-- Embedding-backfill loop of the search route (app/routes/snippets.py
lines 116-126): each row without an embedding gets one from
`search_service.create_snippet_embedding`; an exception raised there
(for example the empty-vocabulary ValueError) propagates out of the
route. The `embed` argument abstracts the service call; its float output
is stored as the row's embedding. -/
def generateEmbeddings (embed : SnippetRecord → Except String (List ℚ)) :
    List SnippetRecord → Except String (List SnippetRecord)
  | [] => .ok []
  | r :: rest =>
      match r.embedding with
      | some _ => (generateEmbeddings embed rest).map (fun rs => r :: rs)
      | none =>
          match embed r with
          | .error e => .error e
          | .ok emb =>
              (generateEmbeddings embed rest).map
                (fun rs => { r with embedding := some emb } :: rs)

/-- Model of the route `POST /search` (app/routes/snippets.py lines
105-173): empty table short-circuits; missing embeddings are generated;
rows with a truthy (non-null, non-empty) embedding form the candidate
pool; the service is called with `threshold=0.30`, and - when that
returns no results although the pool is non-empty - once more with
`threshold=0.20`. Exceptions anywhere propagate as an error response. -/
def search_endpoint (embed : SnippetRecord → Except String (List ℚ))
    (score : List String → String → Except String (List ℚ))
    (db : List SnippetRecord) (query : String) (limit : Int) :
    Except PyErr SearchResponse :=
  if db.isEmpty then .ok ⟨[], 0, query⟩
  else
    match generateEmbeddings embed db with
    | .error e => .error (.valueError e)
    | .ok rows =>
        let swe := rows.filterMap (fun r =>
          match r.embedding with
          | some emb => if emb.isEmpty then none else some ((some r : Option SnippetRecord), emb)
          | none => none)
        match search_snippets_call score query swe limit (some (mkRat 3 10)) with
        | .error e => .error e
        | .ok rs =>
            if rs.isEmpty && !swe.isEmpty then
              match search_snippets_call score query swe limit (some (mkRat 2 10)) with
              | .error e => .error e
              | .ok rs2 => .ok ⟨rs2, rs2.length, query⟩
            else .ok ⟨rs, rs.length, query⟩

/-! ### Concrete fixtures used by witnesses and counterexamples -/

/-- Candidate snippet A of the specification's ranking scenario. -/
def snipA : SnippetRecord := ⟨1, "A", none, "codeA", "python", [], some [1]⟩

/-- Candidate snippet B of the specification's ranking scenario. -/
def snipB : SnippetRecord := ⟨2, "B", none, "codeB", "python", [], some [1]⟩

/-- Candidate snippet C of the specification's ranking scenario. -/
def snipC : SnippetRecord := ⟨3, "C", none, "codeC", "python", [], some [1]⟩

/-- Candidate pool containing A, B and C with stored embeddings. -/
def sweABC : List (Option SnippetRecord × List ℚ) :=
  [(some snipA, [1]), (some snipB, [1]), (some snipC, [1])]

/-- Candidate pool containing only A and B. -/
def sweAB : List (Option SnippetRecord × List ℚ) :=
  [(some snipA, [1]), (some snipB, [1])]

/-- Scoring step yielding the scenario similarities 0.9, 0.5 and 0.1. -/
def scoreABC : List String → String → Except String (List ℚ) :=
  fun _ _ => .ok [mkRat 9 10, mkRat 1 2, mkRat 1 10]

/-- Scoring step with a tied pair of scores (A and C both 0.5). -/
def scoreTie : List String → String → Except String (List ℚ) :=
  fun _ _ => .ok [mkRat 1 2, mkRat 9 10, mkRat 1 2]

/-- Scoring step that always raises, as when the joint fit finds an empty
vocabulary. -/
def scoreFail : List String → String → Except String (List ℚ) :=
  fun _ _ => .error "empty vocabulary; perhaps the documents only contain stop words"

/-- Embedding step that always succeeds with a one-entry vector. -/
def embedOkay : SnippetRecord → Except String (List ℚ) := fun _ => .ok [1]

/-! ### Helper lemmas -/

theorem pySlice_zero (xs : List α) : pySlice 0 xs = [] := by
  simp [pySlice]

theorem pySlice_sublist (limit : Int) (xs : List α) : List.Sublist (pySlice limit xs) xs := by
  unfold pySlice
  split <;> exact List.take_sublist _ _

theorem pySlice_length_le (limit : Int) (xs : List α) (h : 0 ≤ limit) :
    (pySlice limit xs).length ≤ limit.toNat := by
  simp [pySlice, if_pos h]

theorem mem_pySlice {p : α} {limit : Int} {xs : List α} (h : p ∈ pySlice limit xs) :
    p ∈ xs :=
  (pySlice_sublist limit xs).mem h

theorem mem_map_fst_of_mem_candidateObjects {swe : List (Option SnippetRecord × List ℚ)}
    {o : SnippetRecord} (h : o ∈ candidateObjects swe) : some o ∈ swe.map Prod.fst := by
  rcases List.mem_filterMap.mp h with ⟨x, hx, hfx⟩
  exact List.mem_map.mpr ⟨x, hx, hfx⟩

theorem runOp_fitted (s : ServiceState) (op : ServiceOp) : (runOp s op).fitted = s.fitted := by
  cases op with
  | createEmbedding _ => rfl
  | createSnippetEmbedding _ _ _ _ => rfl
  | calculateSimilarity _ _ => rfl
  | searchSnippets query swe limit =>
      simp only [runOp]
      split
      · rfl
      · split
        · rfl
        · split <;> rfl

theorem runOps_fitted (s : ServiceState) (ops : List ServiceOp) :
    (runOps s ops).fitted = s.fitted := by
  induction ops generalizing s with
  | nil => rfl
  | cons op rest ih =>
      show (runOps (runOp s op) rest).fitted = s.fitted
      rw [ih, runOp_fitted]

theorem generateEmbeddings_all_some (embed : SnippetRecord → Except String (List ℚ))
    (db : List SnippetRecord) (h : ∀ r ∈ db, r.embedding.isSome) :
    generateEmbeddings embed db = .ok db := by
  induction db with
  | nil => rfl
  | cons r rest ih =>
      have hr := h r (List.mem_cons_self r rest)
      unfold generateEmbeddings
      cases hemb : r.embedding with
      | none => rw [hemb] at hr; simp at hr
      | some e =>
          rw [ih (fun x hx => h x (List.mem_cons_of_mem r hx))]
          rfl

/-- Scoring step yielding similarities 0.9 and 0.5 for a two-candidate pool. -/
def scoreAB : List String → String → Except String (List ℚ) :=
  fun _ _ => .ok [mkRat 9 10, mkRat 1 2]

/-- State with snippet id 1 present both as a database row and as an entry
of the external vector index. -/
def stBoth : AppState := ⟨[snipA], [⟨"uuid-1", "1", "A", "python", "", [1]⟩]⟩

/-! ### Claim theorems -/

/-- Claim C1, evaluated at the failing input. Calling the service the way
the route does - with a `threshold=0.3` keyword - raises `TypeError`
because `search_snippets` declares no such parameter. Without the keyword,
the scenario result [(A, 0.9), (B, 0.5)] at limit 2 arises from limit
truncation alone: no threshold filtering exists in the service, and with
limit 3 the sub-threshold candidate (C, 0.1) is returned as well. -/
theorem claim_C1_no_threshold_exclusion :
    search_snippets_call scoreABC "q" sweABC 2 (some (mkRat 3 10)) =
      .error (.typeError "search_snippets() got an unexpected keyword argument threshold")
  ∧ search_snippets scoreABC "q" sweABC 2 =
      [(some snipA, mkRat 9 10), (some snipB, mkRat 1 2)]
  ∧ (some snipC, mkRat 1 10) ∈ search_snippets scoreABC "q" sweABC 3 :=
  ⟨rfl, by decide, by decide⟩

/-- Claim C2, evaluated at the failing input. With snippet id 1 present in
both stores, the delete endpoint succeeds and removes the database row,
but the body of the route never calls `delete_snippet_vector`, so the
index entry referencing snippet 1 survives as an orphan. -/
theorem claim_C2_delete_leaves_orphan_index_entry :
    snipA.id = 1
  ∧ stBoth.index.map IndexEntry.snippet_id = ["1"]
  ∧ delete_snippet_endpoint stBoth 1 = .ok ⟨[], stBoth.index⟩ :=
  ⟨rfl, rfl, rfl⟩

/-- Counterexample to claim C3: `create_embedding` on the empty string hits
scikit-learn's empty-vocabulary `ValueError` and propagates it to the
caller - there is no try block and no zero-similarity fallback in
`create_embedding` (search.py lines 22-32). -/
theorem claim_C3_counterexample :
    create_embedding initService "" =
      .error "empty vocabulary; perhaps the documents only contain stop words" := rfl

/-- Amended claim C3: the embedding step inside `search_snippets` never
raises - a vectorisation failure is caught and yields the fallback of all
candidates at similarity 0.0 truncated to the limit - but `create_embedding`
(and through it `create_snippet_embedding` and the route-level backfill)
propagates the empty-vocabulary `ValueError` whenever tokenisation and
stop-word removal leave no term. -/
theorem claim_C3_amended :
    (∀ score q (swe : List (Option SnippetRecord × List ℚ)) limit e,
        swe.isEmpty = false → (candidateTexts swe).isEmpty = false →
        score (candidateTexts swe) q = .error e →
        search_snippets score q swe limit = fallbackResults limit swe)
  ∧ (∀ text, rawVocabulary [analyze tempCfg text] = [] →
        create_embedding initService text =
          .error "empty vocabulary; perhaps the documents only contain stop words") := by
  constructor
  · intro score q swe limit e h1 h2 h3
    simp [search_snippets, h1, h2, h3]
  · intro text h
    simp [create_embedding, initService, create_embedding_unfit, tfidf_fit_transform,
      tfidf_fit, h, Except.map]

/-- Witness for the amended claim C3, at a failing score step and at the
stop-word-only input text. -/
theorem claim_C3_witness :
    search_snippets scoreFail "q" sweABC 5 = fallbackResults 5 sweABC
  ∧ create_embedding initService "the" =
      .error "empty vocabulary; perhaps the documents only contain stop words" :=
  ⟨claim_C3_amended.1 scoreFail "q" sweABC 5
      "empty vocabulary; perhaps the documents only contain stop words" rfl rfl rfl,
   claim_C3_amended.2 "the" (by decide)⟩

/-- Counterexample to claim C4: with a non-empty candidate pool the
negative limit -1 does not produce the empty list - Python's `results[:-1]`
keeps all but the last ranked pair. -/
theorem claim_C4_counterexample :
    search_snippets scoreAB "q" sweAB (-1) ≠ [] := by decide

/-- Amended claim C4: `limit = 0` does return the empty result (Python's
`results[:0]`), but negative limits follow Python slice semantics - they
drop the last `-limit` ranked pairs and can return non-empty results. -/
theorem claim_C4_amended (score : List String → String → Except String (List ℚ))
    (q : String) (swe : List (Option SnippetRecord × List ℚ)) :
    search_snippets score q swe 0 = [] := by
  by_cases h1 : swe.isEmpty
  · simp [search_snippets, h1]
  · by_cases h2 : (candidateTexts swe).isEmpty
    · simp [search_snippets, h1, h2]
    · cases hs : score (candidateTexts swe) q with
      | ok sims => simp [search_snippets, h1, h2, hs, pySlice_zero]
      | error e => simp [search_snippets, h1, h2, hs, fallbackResults, pySlice_zero]

/-- Claim C10: the `fitted` flag of the module-level service starts False
and remains False after any sequence of service operations - even
`search_snippets`, which refits the shared vectorizer object, never
assigns it - so `create_embedding` always takes the unfit branch, fitting
a throwaway vectorizer on just its one input text. -/
theorem claim_C10_fitted_never_set (ops : List ServiceOp) (text : String) :
    (runOps initService ops).fitted = false
  ∧ create_embedding (runOps initService ops) text = create_embedding_unfit text := by
  have hf : (runOps initService ops).fitted = false := by
    rw [runOps_fitted]; rfl
  exact ⟨hf, by simp [create_embedding, hf]⟩

/-- Claim C5, evaluated against the code. Whenever the snippet table is
non-empty, the search route errors out instead of running the
threshold/retry flow: the very first service call passes `threshold=0.30`
to a function without that parameter, raising `TypeError`; the embedding
backfill can only fail earlier, never avoid this. In particular, when
every row already has an embedding the endpoint returns exactly the
`TypeError` - the 0.20 retry is unreachable. -/
theorem claim_C5_search_endpoint_raises_type_error
    (embed : SnippetRecord → Except String (List ℚ))
    (score : List String → String → Except String (List ℚ))
    (db : List SnippetRecord) (q : String) (limit : Int) :
    (db.isEmpty = false → ∃ e, search_endpoint embed score db q limit = .error e)
  ∧ (db.isEmpty = false → (∀ r ∈ db, r.embedding.isSome) →
      search_endpoint embed score db q limit =
        .error (.typeError "search_snippets() got an unexpected keyword argument threshold")) := by
  constructor
  · intro h
    unfold search_endpoint
    rw [if_neg (by simp [h])]
    cases hg : generateEmbeddings embed db with
    | error e => exact ⟨.valueError e, rfl⟩
    | ok rows => exact ⟨_, rfl⟩
  · intro h hall
    unfold search_endpoint
    rw [if_neg (by simp [h]), generateEmbeddings_all_some embed db hall]
    rfl

/-- Witness for claim C5 at a one-row table whose row has an embedding. -/
theorem claim_C5_witness :
    ([snipA].isEmpty = false)
  ∧ search_endpoint embedOkay scoreABC [snipA] "q" 10 =
      .error (.typeError "search_snippets() got an unexpected keyword argument threshold") :=
  ⟨rfl,
   (claim_C5_search_endpoint_raises_type_error embedOkay scoreABC [snipA] "q" 10).2 rfl
     (by decide)⟩

/-- Counterexample to claim C6: at limit -1 a two-candidate pool yields one
result pair, which is not at most the limit. -/
theorem claim_C6_counterexample :
    ¬ (((search_snippets scoreAB "q" sweAB (-1)).length : Int) ≤ -1) := by decide

/-- Amended claim C6: for every non-negative limit, `search_snippets`
returns at most `limit` pairs, each of whose snippet components comes from
the input pool, and an empty pool yields an empty result for every limit.
Negative limits instead follow Python slice semantics and can return more
pairs than the (negative) limit. -/
theorem claim_C6_amended (score : List String → String → Except String (List ℚ))
    (q : String) (swe : List (Option SnippetRecord × List ℚ)) (limit : Int)
    (h : 0 ≤ limit) :
    (search_snippets score q swe limit).length ≤ limit.toNat
  ∧ (∀ p ∈ search_snippets score q swe limit, p.1 ∈ swe.map Prod.fst)
  ∧ (swe = [] → search_snippets score q swe limit = []) := by
  refine ⟨?_, ?_, ?_⟩
  · unfold search_snippets
    split
    · simp
    · split
      · simp
      · split
        · exact pySlice_length_le _ _ h
        · simpa only [fallbackResults, List.length_map] using pySlice_length_le _ swe h
  · intro p hp
    unfold search_snippets at hp
    split at hp
    · simp at hp
    · split at hp
      · simp at hp
      · split at hp
        · have h1 := (List.mem_insertionSort _).mp (mem_pySlice hp)
          unfold scoredResults at h1
          rcases List.mem_map.mp h1 with ⟨pair, hpair, rfl⟩
          exact mem_map_fst_of_mem_candidateObjects (List.of_mem_zip hpair).1
        · unfold fallbackResults at hp
          rcases List.mem_map.mp hp with ⟨x, hx, rfl⟩
          exact List.mem_map.mpr ⟨x, mem_pySlice hx, rfl⟩
  · intro h0
    subst h0
    simp [search_snippets]

/-- Witness for the amended claim C6 at the three-candidate scenario pool
with limit 2. -/
theorem claim_C6_witness :
    (0 : Int) ≤ 2
  ∧ ((search_snippets scoreABC "q" sweABC 2).length ≤ (2 : Int).toNat
      ∧ (∀ p ∈ search_snippets scoreABC "q" sweABC 2, p.1 ∈ sweABC.map Prod.fst)
      ∧ (sweABC = [] → search_snippets scoreABC "q" sweABC 2 = [])) :=
  ⟨by decide, claim_C6_amended scoreABC "q" sweABC 2 (by decide)⟩

theorem pairwise_of_total_true {R : α → α → Prop} (hR : ∀ a b, R a b) (l : List α) :
    l.Pairwise R := by
  induction l with
  | nil => exact .nil
  | cons a t ih => exact .cons (fun b _ => hR a b) ih

theorem pairwise_fallback (limit : Int) (swe : List (Option SnippetRecord × List ℚ)) :
    (fallbackResults limit swe).Pairwise simDesc := by
  unfold fallbackResults
  exact List.pairwise_map.mpr (pairwise_of_total_true (fun a b => le_refl 0) _)

theorem pairwise_filter_score_eq (l : List (α × ℚ)) (v : ℚ) :
    (l.filter (fun p => decide (p.2 = v))).Pairwise simDesc := by
  induction l with
  | nil => exact .nil
  | cons a t ih =>
      by_cases ha : a.2 = v
      · rw [List.filter_cons_of_pos (by simpa using ha)]
        refine List.Pairwise.cons ?_ ih
        intro b hb
        have hbv : b.2 = v := by simpa using List.of_mem_filter hb
        show b.2 ≤ a.2
        rw [hbv, ha]
      · rw [List.filter_cons_of_neg (by simpa using ha)]
        exact ih

theorem filter_score_insertionSort (l : List (α × ℚ)) (v : ℚ) :
    (l.insertionSort simDesc).filter (fun p => decide (p.2 = v)) =
      l.filter (fun p => decide (p.2 = v)) := by
  have hsub : List.Sublist (l.filter (fun p => decide (p.2 = v))) (l.insertionSort simDesc) :=
    List.sublist_insertionSort (pairwise_filter_score_eq l v) (List.filter_sublist l)
  have hsub2 := hsub.filter (fun p => decide (p.2 = v))
  rw [List.filter_filter] at hsub2
  simp only [Bool.and_self] at hsub2
  have hperm :
      List.Perm ((l.insertionSort simDesc).filter (fun p => decide (p.2 = v)))
        (l.filter (fun p => decide (p.2 = v))) :=
    (List.perm_insertionSort simDesc l).filter _
  exact (hsub2.eq_of_length hperm.length_eq.symm).symm

/-- Claim C7: the score sequence returned by `search_snippets` is
non-increasing on every path, and the sort is stable - on the scored path,
the result pairs of any fixed score form a sublist of the pre-sort
candidate pairs of that score (so exact ties keep their input order), and
on the exception path the fallback likewise preserves the input order of
its all-0.0 pairs. -/
theorem claim_C7_sorted_and_stable :
    (∀ score q (swe : List (Option SnippetRecord × List ℚ)) limit,
        (search_snippets score q swe limit).Pairwise simDesc)
  ∧ (∀ score q (swe : List (Option SnippetRecord × List ℚ)) limit sims (v : ℚ),
        score (candidateTexts swe) q = .ok sims →
        List.Sublist
          ((search_snippets score q swe limit).filter (fun p => decide (p.2 = v)))
          ((scoredResults (candidateObjects swe) sims).filter (fun p => decide (p.2 = v))))
  ∧ (∀ score q (swe : List (Option SnippetRecord × List ℚ)) limit e (v : ℚ),
        score (candidateTexts swe) q = .error e →
        List.Sublist
          ((search_snippets score q swe limit).filter (fun p => decide (p.2 = v)))
          ((swe.map (fun p => (p.1, (0 : ℚ)))).filter (fun p => decide (p.2 = v)))) := by
  refine ⟨?_, ?_, ?_⟩
  · intro score q swe limit
    unfold search_snippets
    split
    · exact .nil
    · split
      · exact .nil
      · split
        · exact ((List.sorted_insertionSort simDesc _).sublist (pySlice_sublist _ _))
        · exact pairwise_fallback limit swe
  · intro score q swe limit sims v hs
    by_cases h1 : swe.isEmpty
    · simp only [search_snippets, h1, if_true, List.filter_nil]
      exact List.nil_sublist _
    · by_cases h2 : (candidateTexts swe).isEmpty
      · simp only [search_snippets, h1, h2, if_true, if_false, Bool.false_eq_true,
          List.filter_nil]
        exact List.nil_sublist _
      · rw [show search_snippets score q swe limit =
            pySlice limit ((scoredResults (candidateObjects swe) sims).insertionSort simDesc) by
          simp [search_snippets, h1, h2, hs]]
        rw [← filter_score_insertionSort (scoredResults (candidateObjects swe) sims) v]
        exact (pySlice_sublist _ _).filter _
  · intro score q swe limit e v hs
    by_cases h1 : swe.isEmpty
    · have : swe = [] := List.isEmpty_iff.mp h1
      subst this
      simp only [search_snippets, List.isEmpty_nil, if_true, List.filter_nil]
      exact List.nil_sublist _
    · by_cases h2 : (candidateTexts swe).isEmpty
      · simp only [search_snippets, h1, h2, if_true, if_false, Bool.false_eq_true,
          List.filter_nil]
        exact List.nil_sublist _
      · rw [show search_snippets score q swe limit = fallbackResults limit swe by
          simp [search_snippets, h1, h2, hs]]
        unfold fallbackResults
        exact (((pySlice_sublist limit swe).map _).filter _)

/-- Witness for claim C7 at the tied-score pool (A and C both score 0.5)
and at a failing score step. -/
theorem claim_C7_witness :
    (search_snippets scoreTie "q" sweABC 10).Pairwise simDesc
  ∧ List.Sublist
      ((search_snippets scoreTie "q" sweABC 10).filter (fun p => decide (p.2 = mkRat 1 2)))
      ((scoredResults (candidateObjects sweABC) [mkRat 1 2, mkRat 9 10, mkRat 1 2]).filter
        (fun p => decide (p.2 = mkRat 1 2)))
  ∧ List.Sublist
      ((search_snippets scoreFail "q" sweABC 10).filter (fun p => decide (p.2 = (0 : ℚ))))
      ((sweABC.map (fun p => (p.1, (0 : ℚ)))).filter (fun p => decide (p.2 = (0 : ℚ)))) :=
  ⟨claim_C7_sorted_and_stable.1 scoreTie "q" sweABC 10,
   claim_C7_sorted_and_stable.2.1 scoreTie "q" sweABC 10 [mkRat 1 2, mkRat 9 10, mkRat 1 2]
     (mkRat 1 2) rfl,
   claim_C7_sorted_and_stable.2.2 scoreFail "q" sweABC 10
     "empty vocabulary; perhaps the documents only contain stop words" 0 rfl⟩

theorem sumsq_nonneg (a : List ℚ) : 0 ≤ sumsq a := by
  induction a with
  | nil => simp [sumsq]
  | cons x t ih =>
      have : sumsq (x :: t) = x * x + sumsq t := by simp [sumsq]
      rw [this]
      exact add_nonneg (mul_self_nonneg x) ih

theorem mem_eq_zero_of_sumsq_eq_zero {a : List ℚ} (h : sumsq a = 0) :
    ∀ x ∈ a, x = 0 := by
  induction a with
  | nil => intro x hx; simp at hx
  | cons y t ih =>
      have hy : y * y + sumsq t = 0 := by simpa [sumsq] using h
      have hparts := (add_eq_zero_iff_of_nonneg (mul_self_nonneg y) (sumsq_nonneg t)).mp hy
      intro x hx
      rcases List.mem_cons.mp hx with rfl | hx2
      · exact mul_self_eq_zero.mp hparts.1
      · exact ih hparts.2 x hx2

theorem dotQ_eq_zero_left {a : List ℚ} (b : List ℚ) (h : ∀ x ∈ a, x = 0) :
    dotQ a b = 0 := by
  induction a generalizing b with
  | nil => simp [dotQ]
  | cons x t ih =>
      cases b with
      | nil => simp [dotQ]
      | cons y u =>
          have hx : x = 0 := h x (List.mem_cons_self x t)
          have ht : dotQ t u = 0 := ih u (fun z hz => h z (List.mem_cons_of_mem x hz))
          simp [dotQ, hx] at ht ⊢
          simpa [dotQ] using ht

theorem dotQ_eq_zero_right (a : List ℚ) {b : List ℚ} (h : ∀ y ∈ b, y = 0) :
    dotQ a b = 0 := by
  induction a generalizing b with
  | nil => simp [dotQ]
  | cons x t ih =>
      cases b with
      | nil => simp [dotQ]
      | cons y u =>
          have hy : y = 0 := h y (List.mem_cons_self y u)
          have ht : dotQ t u = 0 := ih (fun z hz => h z (List.mem_cons_of_mem y hz))
          simp [dotQ, hy] at ht ⊢
          simpa [dotQ] using ht

/-- Claim C8: `calculate_similarity` is defined on every pair of vectors -
a length mismatch never raises because both vectors are truncated to the
shorter length first - the shorter length zero yields 0.0 outright, and a
truncated vector of magnitude zero also yields 0.0 (never NaN, matching
scikit-learn's zero-norm handling). -/
theorem claim_C8_similarity_total (q s : List ℚ) :
    (calculate_similarity q s).isSome = true
  ∧ calculate_similarity q s =
      calculate_similarity (q.take (min q.length s.length)) (s.take (min q.length s.length))
  ∧ (min q.length s.length = 0 → calculate_similarity q s = some 0)
  ∧ ((sumsq (q.take (min q.length s.length)) = 0 ∨
        sumsq (s.take (min q.length s.length)) = 0) →
      calculate_similarity q s = some 0) := by
  have hql : (q.take (min q.length s.length)).length = min q.length s.length := by
    simp [List.length_take]
  have hsl : (s.take (min q.length s.length)).length = min q.length s.length := by
    simp [List.length_take]
  by_cases hm : min q.length s.length = 0
  · have h1 : calculate_similarity q s = some 0 := by
      simp only [calculate_similarity]
      rw [if_pos hm]
    have h2 : calculate_similarity (q.take (min q.length s.length))
        (s.take (min q.length s.length)) = some 0 := by
      simp only [calculate_similarity]
      rw [if_pos (by rw [hql, hsl, hm, Nat.min_self])]
    exact ⟨by rw [h1]; rfl, by rw [h1, h2], fun _ => h1, fun _ => h1⟩
  · have hcos : calculate_similarity q s =
        sklearn_cosine (q.take (min q.length s.length)) (s.take (min q.length s.length)) := by
      simp only [calculate_similarity]
      rw [if_neg hm]
    have hlen : ¬ ((q.take (min q.length s.length)).length ≠
        (s.take (min q.length s.length)).length) := by
      rw [hql, hsl]
      exact fun hne => hne rfl
    refine ⟨?_, ?_, fun h0 => absurd h0 hm, ?_⟩
    · rw [hcos]
      simp only [sklearn_cosine]
      rw [if_neg hlen]
      rfl
    · simp only [calculate_similarity]
      rw [if_neg hm, if_neg (by rw [hql, hsl, Nat.min_self]; exact hm),
        hql, hsl, Nat.min_self, List.take_take, Nat.min_self, List.take_take, Nat.min_self]
    · intro h0
      rw [hcos]
      simp only [sklearn_cosine]
      rw [if_neg hlen]
      have hdot : dotQ (q.take (min q.length s.length)) (s.take (min q.length s.length)) = 0 := by
        rcases h0 with h0 | h0
        · exact dotQ_eq_zero_left _ (mem_eq_zero_of_sumsq_eq_zero h0)
        · exact dotQ_eq_zero_right _ (mem_eq_zero_of_sumsq_eq_zero h0)
      rw [hdot]
      norm_num

/-- Witness for claim C8: a zero-magnitude vector against a longer vector
gives 0.0, an empty second vector gives 0.0, and a genuine pair is
defined. -/
theorem claim_C8_witness :
    calculate_similarity ([0, 0] : List ℚ) [1, 1, 1] = some 0
  ∧ calculate_similarity ([1] : List ℚ) [] = some 0
  ∧ (calculate_similarity ([1, 2] : List ℚ) [2, 1]).isSome = true :=
  ⟨(claim_C8_similarity_total [0, 0] [1, 1, 1]).2.2.2 (Or.inl (by norm_num [sumsq, List.take])),
   (claim_C8_similarity_total [1] []).2.2.1 (by decide),
   (claim_C8_similarity_total [1, 2] [2, 1]).1⟩

/-- Client whose every operation raises, as when the external index is
unreachable (network or auth failure). -/
def failingClient : WeaviateClient :=
  ⟨fun _ => .error "connection refused", fun _ => .error "connection refused",
   fun _ => .error "connection refused", fun _ => .error "connection refused"⟩

/-- Client over an index that contains no entry for any queried id: every
lookup succeeds with the well-formed empty object list Weaviate returns
for a filter that matches nothing. -/
def absentClient : WeaviateClient :=
  ⟨fun _ => .ok "uuid", fun _ => .ok ⟨some []⟩, fun _ => .ok ⟨some []⟩, fun _ => .ok ()⟩

/-- Counterexample to claim C9: deleting an id that is absent from the
index does not return a false/failure flag - the well-formed empty
response enters the found branch, the loop over zero matches does
nothing, and the function returns True (the False branch is reserved for
responses without the nested data keys). -/
theorem claim_C9_counterexample :
    delete_snippet_vector absentClient "1" = true := rfl

/-- Amended claim C9: every failure inside an adapter operation is caught
at the boundary and converted to a defined return value - False for
store, the empty list for search, False for delete - and no exception
escapes (each operation is total for every client behaviour). Deleting an
absent id does not raise either, but it returns True on Weaviate's
well-formed empty response; False is returned only when the response
lacks the nested data keys or an operation raises. -/
theorem claim_C9_adapter_error_handling (client : WeaviateClient) :
    (∀ sid emb t l d m, client.create_obj ⟨sid, t, l, d, emb⟩ = .error m →
        store_snippet_vector client sid emb t l d = false)
  ∧ (∀ sid emb t l d u, client.create_obj ⟨sid, t, l, d, emb⟩ = .ok u →
        store_snippet_vector client sid emb t l d = true)
  ∧ (∀ qv lim m, client.query_near ⟨qv, mkRat 6 10, lim⟩ = .error m →
        search_similar_snippets client qv lim = [])
  ∧ (∀ qv lim, client.query_near ⟨qv, mkRat 6 10, lim⟩ = .ok ⟨none⟩ →
        search_similar_snippets client qv lim = [])
  ∧ (∀ sid m, client.query_where sid = .error m →
        delete_snippet_vector client sid = false)
  ∧ (∀ sid, client.query_where sid = .ok ⟨none⟩ →
        delete_snippet_vector client sid = false)
  ∧ (∀ sid, client.query_where sid = .ok ⟨some []⟩ →
        delete_snippet_vector client sid = true)
  ∧ (∀ sid sn rest m, client.query_where sid = .ok ⟨some (sn :: rest)⟩ →
        client.delete_obj sn.additional_id = .error m →
        delete_snippet_vector client sid = false) := by
  refine ⟨?_, ?_, ?_, ?_, ?_, ?_, ?_, ?_⟩
  · intro sid emb t l d m h
    unfold store_snippet_vector
    rw [h]
  · intro sid emb t l d u h
    unfold store_snippet_vector
    rw [h]
  · intro qv lim m h
    unfold search_similar_snippets
    rw [h]
  · intro qv lim h
    unfold search_similar_snippets
    rw [h]
  · intro sid m h
    unfold delete_snippet_vector
    rw [h]
  · intro sid h
    unfold delete_snippet_vector
    rw [h]
  · intro sid h
    unfold delete_snippet_vector
    rw [h]
    rfl
  · intro sid sn rest m hq hd
    unfold delete_snippet_vector
    rw [hq]
    show deleteLoop client (sn :: rest) = false
    unfold deleteLoop
    rw [hd]

/-- Witness for the amended claim C9 at the unreachable-index client. -/
theorem claim_C9_witness :
    store_snippet_vector failingClient "1" [1] "t" "py" "" = false
  ∧ search_similar_snippets failingClient [1] 10 = []
  ∧ delete_snippet_vector failingClient "1" = false :=
  ⟨(claim_C9_adapter_error_handling failingClient).1 "1" [1] "t" "py" ""
      "connection refused" rfl,
   (claim_C9_adapter_error_handling failingClient).2.2.1 [1] 10 "connection refused" rfl,
   (claim_C9_adapter_error_handling failingClient).2.2.2.2.1 "1" "connection refused" rfl⟩

end DevSnippets
